import Mathlib

/-!
Verification of the llm-gateway repository: a shallow embedding in Lean 4 of
the quota ledger (`checkAndDecrementAPIKey`), the forwarding handler
(`handleForwardToEndpoint`), the upstream call (`sendRequest`), and the
OAuth token exchange (`exchangeJWTForAccessToken`), together with theorems
settling the specification's claims about them.

Conventions of the embedding:
- byte streams are `List Nat` (byte values); the newline byte is `10`;
- the Postgres table `api_keys (key TEXT PRIMARY KEY, remaining_calls INTEGER)`
  is an association list `List (String × Int)`; the `DB` structure carries
  fault-injection flags standing for connectivity/query failures of the
  SELECT and UPDATE statements;
- fallible Go calls are `Except String`;
- the environment's upstream HTTP behaviour is an explicit parameter
  (`UpstreamOutcome`), since the network is outside the program.
-/

namespace LLMGateway

/-- Lookup of `SELECT remaining_calls FROM api_keys WHERE key = $1`:
first row whose key matches (`key` is the primary key, so at most one). -/
def lookup : List (String × Int) → String → Option Int
  | [], _ => none
  | (k, v) :: rest, key => if k = key then some v else lookup rest key

/-- Effect of `UPDATE api_keys SET remaining_calls = remaining_calls - 1
WHERE key = $1` on the table: every row whose key matches is decremented. -/
def updateDecr : List (String × Int) → String → List (String × Int)
  | [], _ => []
  | (k, v) :: rest, key =>
    if k = key then (k, v - 1) :: updateDecr rest key
    else (k, v) :: updateDecr rest key

/-- Database state: the `api_keys` table plus fault-injection flags modelling
an underlying connectivity or query failure of the SELECT and of the UPDATE
statement respectively. -/
structure DB where
  table : List (String × Int)
  selectFails : Bool := false
  updateFails : Bool := false

/-- Embedding of `checkAndDecrementAPIKey` (src/main.go:220-240):
SELECT the remaining count (no rows ⇒ error "API key not found", query
failure ⇒ the raw error); if the value read is `≤ 0` return 0 without
mutating; otherwise issue the decrementing UPDATE and return the value
read minus one. The SELECT and the UPDATE are two separate statements. -/
def checkAndDecrementAPIKey (db : DB) (key : String) : Except String Int × DB :=
  if db.selectFails then (Except.error "db: select failed", db)
  else
    match lookup db.table key with
    | none => (Except.error "API key not found", db)
    | some remainingCalls =>
      if remainingCalls ≤ 0 then (Except.ok 0, db)
      else if db.updateFails then (Except.error "db: update failed", db)
      else (Except.ok (remainingCalls - 1),
            { db with table := updateDecr db.table key })

/-- Events observable at the gateway boundary while handling one request:
reading a chunk from the upstream body, writing one line to the client's
`ResponseWriter`, and flushing it. -/
inductive Ev where
  | readChunk (c : List Nat)
  | writeLine (l : List Nat)
  | flush
deriving DecidableEq, Repr

/-- `bufio.Reader.ReadBytes('\n')` on the remaining buffered bytes: the
prefix up to and including the first newline together with the rest, or
`none` when the stream ends before a newline is found (in Go: data returned
together with `io.EOF`, which the handler's loop discards). -/
def takeLine : List Nat → Option (List Nat × List Nat)
  | [] => none
  | b :: rest =>
    if b = 10 then some ([10], rest)
    else
      match takeLine rest with
      | some (l, r) => some (b :: l, r)
      | none => none

/-- The line-copy loop of `handleForwardToEndpoint` (src/main.go:196-217),
with an explicit fuel bound for structural termination: repeatedly
`ReadBytes('\n')`; on success write the line and flush; on any read error
(including `io.EOF`, with or without a partial line pending) break out of
the loop. Each successful read consumes at least one byte, so fuel equal
to the stream length never runs out (`relayLoop_fuel_eq` below shows the
bound is inert). -/
def relayLoop : Nat → List Nat → List Ev
  | 0, _ => []
  | fuel + 1, s =>
    match takeLine s with
    | some (l, r) => Ev.writeLine l :: Ev.flush :: relayLoop fuel r
    | none => []

/-- The write/flush events the handler's line-copy loop emits for a fully
buffered upstream body `s`. -/
def relayEvents (s : List Nat) : List Ev :=
  relayLoop s.length s

/-- Outcome of the network call made for the gateway by `http.Client.Do`
inside `sendRequest`: either a transport-side error carrying Go's error
text, or a response with a status code and a body delivered as a sequence
of chunks (the granularity in which bytes arrive from the socket). -/
inductive UpstreamOutcome where
  | transportErr (msg : String)
  | success (status : Nat) (chunks : List (List Nat))
deriving DecidableEq, Repr

/-- Embedding of `sendRequest` (src/main.go:242-267): on transport error,
return the error; otherwise `io.ReadAll` the response body — consuming
every chunk to EOF — and return the status together with the fully
materialized body bytes. -/
def sendRequest (outcome : UpstreamOutcome) : Except String (Nat × List Nat) :=
  match outcome with
  | UpstreamOutcome.transportErr msg => Except.error msg
  | UpstreamOutcome.success status chunks => Except.ok (status, chunks.flatten)

/-- The upstream-read events of `sendRequest`: `io.ReadAll` consumes every
chunk of the body, in order, before `sendRequest` returns. -/
def sendRequestEvents : UpstreamOutcome → List Ev
  | UpstreamOutcome.transportErr _ => []
  | UpstreamOutcome.success _ chunks => chunks.map Ev.readChunk

/-- An inbound request as the handler sees it: the HTTP method, the value of
the `x-api-key` header (`""` when the header is absent — Go's
`Header.Get` returns the empty string), the request body bytes, and a flag
modelling a failure of `io.ReadAll(r.Body)`. -/
structure Request where
  method : String
  apiKey : String
  body : List Nat := []
  bodyReadFails : Bool := false

/-- Everything the handler produces for one request: the response status,
the textual error body (empty on the streaming path, whose bytes appear as
events instead), the `X-RateLimit-Remaining` header if set, the
write/flush events sent to the client, whether the upstream endpoint was
called, and the database state afterwards. -/
structure HandlerOutcome where
  status : Nat
  body : String
  remainingHeader : Option Int
  events : List Ev
  upstreamCalled : Bool
  db : DB

/-- Embedding of `handleForwardToEndpoint` (src/main.go:130-218), step by
step in source order: reject non-POST with 405; reject a missing
`x-api-key` header with 401; run `checkAndDecrementAPIKey`, any error ⇒
401 "Invalid or expired API key"; a result `≤ 0` ⇒ 403 "API key has no
remaining calls"; set the `X-RateLimit-Remaining` header; read the inbound
body (failure ⇒ 400); call `sendRequest`, a transport error ⇒ 500 with
body `"Request failed: " ++ err`; otherwise stream the upstream body to
the client line by line with a flush after each write. -/
def handleForwardToEndpoint (req : Request) (db : DB)
    (upstream : UpstreamOutcome) : HandlerOutcome :=
  if req.method ≠ "POST" then
    ⟨405, "Method not allowed", none, [], false, db⟩
  else if req.apiKey = "" then
    ⟨401, "API key is required", none, [], false, db⟩
  else
    match checkAndDecrementAPIKey db req.apiKey with
    | (Except.error _, db2) =>
      ⟨401, "Invalid or expired API key", none, [], false, db2⟩
    | (Except.ok remainingCalls, db2) =>
      if remainingCalls ≤ 0 then
        ⟨403, "API key has no remaining calls", none, [], false, db2⟩
      else if req.bodyReadFails then
        ⟨400, "Error reading request body", some remainingCalls, [], false, db2⟩
      else
        match sendRequest upstream with
        | Except.error msg =>
          ⟨500, "Request failed: " ++ msg, some remainingCalls, [], true, db2⟩
        | Except.ok (_, respBody) =>
          ⟨200, "", some remainingCalls, relayEvents respBody, true, db2⟩

/-! ## Token exchange (src/unnamed/part_002, `exchangeJWTForAccessToken`) -/

/-- A JSON value, as `encoding/json` decodes it. -/
inductive Json where
  | null
  | bool (b : Bool)
  | num (n : Int)
  | str (s : String)
  | arr (elems : List Json)
  | obj (fields : List (String × Json))

/-- First field of a JSON object with the given name. -/
def lookupField : List (String × Json) → String → Option Json
  | [], _ => none
  | (k, v) :: rest, name => if k = name then some v else lookupField rest name

/-- Go's `json.Unmarshal` into `struct { AccessToken string
\x60json:"access_token"\x60 }`: a JSON `null` or an object leaves absent
fields at their zero value (`""`) without error; an `access_token` field
holding a string is taken, holding `null` is skipped, holding any other
value is a type error; any other top-level JSON value is a type error. -/
def unmarshalTokenResponse : Json → Except String String
  | Json.null => Except.ok ""
  | Json.obj fields =>
    match lookupField fields "access_token" with
    | none => Except.ok ""
    | some (Json.str s) => Except.ok s
    | some Json.null => Except.ok ""
    | some _ => Except.error "json: cannot unmarshal value into field of type string"
  | _ => Except.error "json: cannot unmarshal value into struct"

/-- Outcome of `http.Post` to the token endpoint, as the environment
delivers it: a transport-side error, a failure reading the response body,
or a response with status, raw body text, and — by convention of the
embedding — `parsed`, the result of `encoding/json` parsing of that raw
body (`none` when the body is not valid JSON). -/
inductive TokenHttpOutcome where
  | transportErr (msg : String)
  | readErr (msg : String)
  | response (status : Nat) (rawBody : String) (parsed : Option Json)

/-- Embedding of `exchangeJWTForAccessToken` (src/unnamed/part_002:54-84):
transport error ⇒ error "sending request"; body read error ⇒ error
"reading response"; status other than 200 ⇒ error carrying the status code
and the raw body; body not valid JSON, or JSON incompatible with the
target struct ⇒ error "parsing response"; otherwise return the struct's
`AccessToken` field — the empty string when `access_token` was absent. -/
def exchangeJWTForAccessToken (outcome : TokenHttpOutcome) : Except String String :=
  match outcome with
  | TokenHttpOutcome.transportErr msg =>
    Except.error ("sending request: " ++ msg)
  | TokenHttpOutcome.readErr msg =>
    Except.error ("reading response: " ++ msg)
  | TokenHttpOutcome.response status rawBody parsed =>
    if status ≠ 200 then
      Except.error ("token exchange failed: status=" ++ toString status
        ++ ", body=" ++ rawBody)
    else
      match parsed with
      | none => Except.error "parsing response: invalid JSON"
      | some j =>
        match unmarshalTokenResponse j with
        | Except.error e => Except.error ("parsing response: " ++ e)
        | Except.ok tok => Except.ok tok

/-- Whether an `Except` result is a success. -/
def exOk : Except String String → Bool
  | Except.ok _ => true
  | Except.error _ => false

/-- Failure condition of the token exchange as the amended specification
words it: the HTTP call errors transport-side, or reading the body errors,
or the status is not OK, or the body is not valid JSON, or the JSON is
shape-incompatible with the expected object (top level neither object nor
null, or an `access_token` field holding a non-string, non-null value).
A valid JSON object merely *lacking* `access_token` is NOT a failure. -/
def specTokenExchangeFails : TokenHttpOutcome → Bool
  | TokenHttpOutcome.transportErr _ => true
  | TokenHttpOutcome.readErr _ => true
  | TokenHttpOutcome.response status _ parsed =>
    if status ≠ 200 then true
    else
      match parsed with
      | none => true
      | some (Json.obj fields) =>
        match lookupField fields "access_token" with
        | none => false
        | some (Json.str _) => false
        | some Json.null => false
        | some _ => true
      | some Json.null => false
      | some _ => true

/-! ## Concurrency model for `checkAndDecrementAPIKey`

The Go function issues two separate SQL statements with no enclosing
transaction: a SELECT of `remaining_calls`, then an unconditional
decrementing UPDATE guarded only by the value previously read. Under
concurrent invocation against the same key, statement executions
interleave; each single statement is itself atomic on the database side.
We model one quota record and `c` concurrent calls, each a two-step
program (read, then conditional update), driven by an explicit schedule
of call indices. -/

/-- Per-call progress: the value the SELECT read (if issued yet) and the
call's return value (once finished). -/
structure CallSt where
  readVal : Option Int
  ret : Option Int
deriving DecidableEq, Repr

/-- Global state of the race: the stored `remaining_calls` of the one
record, and each concurrent call's progress. -/
structure QState where
  stored : Int
  calls : List CallSt
deriving DecidableEq, Repr

/-- One scheduler step: run the next statement of call `i`.
A call that has not read yet executes its SELECT, recording the current
stored value. A call that has read `v` executes its second half: if
`v ≤ 0` it returns 0 without touching the store (src/main.go:230-232);
otherwise it issues `UPDATE ... SET remaining_calls = remaining_calls - 1`
— decrementing whatever is stored *now* — and returns `v - 1`
(src/main.go:234-239). Finished or out-of-range indices do nothing. -/
def stepCall (s : QState) (i : Nat) : QState :=
  match s.calls[i]? with
  | none => s
  | some c =>
    match c.ret with
    | some _ => s
    | none =>
      match c.readVal with
      | none =>
        { s with calls := s.calls.set i { c with readVal := some s.stored } }
      | some v =>
        if v ≤ 0 then
          { s with calls := s.calls.set i { c with ret := some 0 } }
        else
          { stored := s.stored - 1,
            calls := s.calls.set i { c with ret := some (v - 1) } }

/-- Run a schedule (a list of call indices) from a given state. -/
def runSched (init : QState) (sched : List Nat) : QState :=
  sched.foldl stepCall init

/-- Initial race state: the record holds `n`, and `c` calls are pending. -/
def initQ (n : Int) (c : Nat) : QState :=
  ⟨n, List.replicate c ⟨none, none⟩⟩

/-- How many of the concurrent calls finished with a non-zero result. -/
def nonzeroResults (s : QState) : Nat :=
  s.calls.countP fun c =>
    match c.ret with
    | some r => decide (r ≠ 0)
    | none => false

/-! ## Trace of the streaming path (for the buffering claim) -/

/-- Is this event an upstream read? -/
def isRead : Ev → Bool
  | Ev.readChunk _ => true
  | _ => false

/-- True when no upstream-read event occurs at or after the first client
write: the whole upstream body was consumed before streaming began. -/
def noReadAfterFirstWrite : List Ev → Bool
  | [] => true
  | Ev.writeLine _ :: rest => rest.all fun e => !(isRead e)
  | _ :: rest => noReadAfterFirstWrite rest

/-- The gateway's event trace for a successful upstream response delivered
in `chunks`: first the reads `sendRequest` performs via `io.ReadAll`, then
the handler's line-by-line writes and flushes over the materialized body. -/
def streamingTrace (chunks : List (List Nat)) : List Ev :=
  sendRequestEvents (UpstreamOutcome.success 200 chunks)
    ++ relayEvents chunks.flatten

/-! ## Well-formed lines -/

/-- A newline-terminated line: nonempty, ends with the newline byte `10`,
and contains no other newline byte. -/
def isLine : List Nat → Bool
  | [] => false
  | b :: rest => if b = 10 then rest.isEmpty else isLine rest

/-! ## Concrete scenario: key "abc" with remaining_calls = 3 -/

/-- A valid POST request carrying the key `"abc"`. -/
def reqAbc : Request := { method := "POST", apiKey := "abc" }

/-- Ledger holding the single record `("abc", 3)`, no storage faults. -/
def dbAbc : DB := { table := [("abc", 3)] }

/-- A healthy upstream answering with one newline-terminated line. -/
def upOk : UpstreamOutcome := UpstreamOutcome.success 200 [[97, 10]]

/-- Outcome of the first sequential request of the scenario. -/
def seqOutcome1 : HandlerOutcome := handleForwardToEndpoint reqAbc dbAbc upOk

/-- Outcome of the second sequential request. -/
def seqOutcome2 : HandlerOutcome :=
  handleForwardToEndpoint reqAbc seqOutcome1.db upOk

/-- Outcome of the third sequential request. -/
def seqOutcome3 : HandlerOutcome :=
  handleForwardToEndpoint reqAbc seqOutcome2.db upOk

/-- Outcome of the fourth sequential request. -/
def seqOutcome4 : HandlerOutcome :=
  handleForwardToEndpoint reqAbc seqOutcome3.db upOk

/-! ## Helper lemmas -/

theorem takeLine_rest_length :
    ∀ s l r, takeLine s = some (l, r) → r.length < s.length := by
  intro s
  induction s with
  | nil => intro l r h; simp [takeLine] at h
  | cons b rest ih =>
    intro l r h
    by_cases hb : b = 10
    · simp [takeLine, hb] at h
      simp [← h.2]
    · simp [takeLine, hb] at h
      cases htl : takeLine rest with
      | none => rw [htl] at h; simp at h
      | some p =>
        rw [htl] at h
        simp at h
        have := ih p.1 p.2 (by rw [htl])
        have hr : r = p.2 := by
          cases p; simp at h; exact h.2.symm
        rw [hr]
        simpa using Nat.lt_succ_of_lt this

theorem relayLoop_fuel_eq :
    ∀ (fuel : Nat) (s : List Nat), s.length ≤ fuel →
      relayLoop fuel s = relayEvents s := by
  intro fuel
  induction fuel using Nat.strong_induction_on with
  | _ fuel ih =>
    intro s hs
    match fuel with
    | 0 =>
      have hnil : s = [] := List.eq_nil_of_length_eq_zero (Nat.le_zero.mp hs)
      rw [hnil]; rfl
    | f + 1 =>
      match s with
      | [] => rfl
      | b :: t =>
        show relayLoop (f + 1) (b :: t) = relayLoop (b :: t).length (b :: t)
        simp only [List.length_cons] at hs ⊢
        simp only [relayLoop]
        cases htl : takeLine (b :: t) with
        | none => rfl
        | some p =>
          obtain ⟨l, r⟩ := p
          have hr : r.length < t.length + 1 := by
            simpa using takeLine_rest_length (b :: t) l r htl
          have h1 : relayLoop f r = relayEvents r :=
            ih f (Nat.lt_succ_self f) r (by omega)
          have h2 : relayLoop t.length r = relayEvents r :=
            ih t.length (by omega) r (by omega)
          dsimp only
          rw [h1, h2]

theorem relayEvents_eq_none {s : List Nat} (h : takeLine s = none) :
    relayEvents s = [] := by
  cases s with
  | nil => rfl
  | cons b t =>
    show relayLoop (b :: t).length (b :: t) = []
    simp only [List.length_cons, relayLoop, h]

theorem relayEvents_eq_some {s l r : List Nat} (h : takeLine s = some (l, r)) :
    relayEvents s = Ev.writeLine l :: Ev.flush :: relayEvents r := by
  cases s with
  | nil => simp [takeLine] at h
  | cons b t =>
    show relayLoop (b :: t).length (b :: t) = _
    simp only [List.length_cons, relayLoop, h]
    have hr : r.length < t.length + 1 := by
      simpa using takeLine_rest_length (b :: t) l r h
    rw [relayLoop_fuel_eq t.length r (by omega)]

theorem lookup_updateDecr_self :
    ∀ (t : List (String × Int)) (k : String) (n : Int),
      lookup t k = some n → lookup (updateDecr t k) k = some (n - 1) := by
  intro t
  induction t with
  | nil => intro k n h; simp [lookup] at h
  | cons e rest ih =>
    intro k n h
    obtain ⟨ek, ev⟩ := e
    by_cases hk : ek = k
    · subst hk
      simp [lookup] at h
      simp [updateDecr, lookup, h]
    · simp [lookup, hk] at h
      simp [updateDecr, lookup, hk]
      exact ih k n h

theorem lookup_updateDecr_ne :
    ∀ (t : List (String × Int)) (k k2 : String),
      k2 ≠ k → lookup (updateDecr t k) k2 = lookup t k2 := by
  intro t
  induction t with
  | nil => intro k k2 _; rfl
  | cons e rest ih =>
    intro k k2 hne
    obtain ⟨ek, ev⟩ := e
    by_cases hk : ek = k
    · subst hk
      have hek : ek ≠ k2 := fun h => hne (h ▸ rfl)
      simp [updateDecr, lookup, hek, ih ek k2 hne]
    · by_cases h2 : ek = k2
      · subst h2
        simp [updateDecr, lookup, hk]
      · simp [updateDecr, lookup, hk, h2, ih k k2 hne]

theorem checkAndDecrement_error_of_lookup_none {db : DB} {k : String}
    (h : lookup db.table k = none) :
    ∃ e, (checkAndDecrementAPIKey db k).1 = Except.error e := by
  unfold checkAndDecrementAPIKey
  cases hs : db.selectFails with
  | true => exact ⟨"db: select failed", by simp [hs]⟩
  | false => exact ⟨"API key not found", by simp [hs, h]⟩

theorem takeLine_append_of_isLine :
    ∀ (l : List Nat), isLine l = true →
      ∀ rest, takeLine (l ++ rest) = some (l, rest) := by
  intro l
  induction l with
  | nil => intro h; simp [isLine] at h
  | cons b t ih =>
    intro h rest
    by_cases hb : b = 10
    · subst hb
      have hte : t.isEmpty = true := by simpa [isLine] using h
      have ht : t = [] := by simpa [List.isEmpty_iff] using hte
      subst ht
      simp [takeLine]
    · have ht : isLine t = true := by simpa [isLine, hb] using h
      simp [takeLine, hb, ih ht rest]

theorem takeLine_eq_none_of_no_newline :
    ∀ (s : List Nat), (∀ b ∈ s, b ≠ 10) → takeLine s = none := by
  intro s
  induction s with
  | nil => intro _; rfl
  | cons b t ih =>
    intro h
    have hb : b ≠ 10 := h b (by simp)
    have ht := ih fun x hx => h x (by simp [hx])
    simp [takeLine, hb, ht]

theorem relayEvents_flatten_append :
    ∀ (lines : List (List Nat)) (tail : List Nat),
      (∀ l ∈ lines, isLine l = true) → takeLine tail = none →
      relayEvents (lines.flatten ++ tail)
        = (lines.map fun l => [Ev.writeLine l, Ev.flush]).flatten := by
  intro lines
  induction lines with
  | nil =>
    intro tail _ htail
    simpa using relayEvents_eq_none htail
  | cons l ls ih =>
    intro tail h htail
    have hl : isLine l = true := h l (by simp)
    have hrest : ∀ x ∈ ls, isLine x = true := fun x hx => h x (by simp [hx])
    have hsplit : takeLine (l ++ (ls.flatten ++ tail))
        = some (l, ls.flatten ++ tail) := takeLine_append_of_isLine l hl _
    have harr : (l :: ls).flatten ++ tail = l ++ (ls.flatten ++ tail) := by simp
    rw [harr, relayEvents_eq_some hsplit, ih tail hrest htail]
    simp

theorem relayLoop_all_not_read :
    ∀ (fuel : Nat) (s : List Nat),
      (relayLoop fuel s).all (fun e => !(isRead e)) = true := by
  intro fuel
  induction fuel with
  | zero => intro s; rfl
  | succ f ih =>
    intro s
    simp only [relayLoop]
    cases htl : takeLine s with
    | none => rfl
    | some p =>
      obtain ⟨l, r⟩ := p
      dsimp only
      simp only [List.all_cons, Bool.and_eq_true]
      exact ⟨by rfl, by rfl, ih r⟩

theorem noReadAfterFirstWrite_of_all_writes :
    ∀ tr : List Ev, tr.all (fun e => !(isRead e)) = true →
      noReadAfterFirstWrite tr = true := by
  intro tr
  induction tr with
  | nil => intro _; rfl
  | cons e rest ih =>
    intro h
    rw [List.all_cons, Bool.and_eq_true] at h
    cases e with
    | readChunk c => simp [isRead] at h
    | writeLine l => simpa [noReadAfterFirstWrite] using h.2
    | flush => simpa [noReadAfterFirstWrite] using ih h.2

theorem noReadAfterFirstWrite_reads_append :
    ∀ (cs : List (List Nat)) (tr : List Ev),
      noReadAfterFirstWrite tr = true →
      noReadAfterFirstWrite (cs.map Ev.readChunk ++ tr) = true := by
  intro cs
  induction cs with
  | nil => intro tr h; exact h
  | cons c cs2 ih =>
    intro tr h
    simpa [noReadAfterFirstWrite] using ih tr h

/-! ## Claim theorems -/

/-- C1: the claim asserts that the read and conditional decrement of
`checkAndDecrementAPIKey` are indivisible, so that under `c` concurrent
calls against a record holding `n < c` exactly `n` calls observe a
non-zero result and the stored value never goes negative. The code issues
the SELECT and the UPDATE as two separate statements, so under the
schedule in which three concurrent calls all execute their SELECT (each
reading 2) before any executes its UPDATE, all three calls return the
non-zero result 1 — over-consuming a budget of n = 2 — and the stored
value is driven to -1. -/
theorem c1_lost_update_race :
    (runSched (initQ 2 3) [0, 1, 2, 0, 1, 2]).stored = -1 ∧
      nonzeroResults (runSched (initQ 2 3) [0, 1, 2, 0, 1, 2]) = 3 := by
  decide

/-- C2 counterexample: the claim asserts that with `remaining_calls = 3`
three sequential valid requests all succeed with reported remaining counts
2, 1, 0, and the fourth is forbidden. In the code the handler rejects
whenever the *post-decrement* count is `≤ 0`, so the third request — whose
check-and-decrement returns 0 — receives forbidden (403) and is never
forwarded upstream, refuting the claim at this concrete scenario. -/
theorem c2_counterexample :
    seqOutcome1.status = 200 ∧ seqOutcome1.remainingHeader = some 2 ∧
    seqOutcome2.status = 200 ∧ seqOutcome2.remainingHeader = some 1 ∧
    seqOutcome3.status = 403 ∧ seqOutcome3.upstreamCalled = false := by
  decide

/-- C2 amended: with `remaining_calls = 3`, the first two sequential valid
requests succeed (are forwarded upstream) with reported remaining counts
2 and 1; the third request receives forbidden (403) and is not forwarded,
yet still decrements the stored count to 0; the fourth request also
receives forbidden. -/
theorem c2_amended_scenario :
    seqOutcome1.status = 200 ∧ seqOutcome1.remainingHeader = some 2 ∧
    seqOutcome1.upstreamCalled = true ∧
    seqOutcome2.status = 200 ∧ seqOutcome2.remainingHeader = some 1 ∧
    seqOutcome2.upstreamCalled = true ∧
    seqOutcome3.status = 403 ∧ seqOutcome3.upstreamCalled = false ∧
    lookup seqOutcome3.db.table "abc" = some 0 ∧
    seqOutcome4.status = 403 ∧ seqOutcome4.upstreamCalled = false := by
  decide

/-- C3: the claim asserts the gateway never materializes the full upstream
body before beginning to relay lines, consuming bytes incrementally as
they are relayed. In the code `sendRequest` calls `io.ReadAll` on the
upstream body, so for *every* upstream response — however many chunks the
body arrives in — every upstream read event precedes the first client
write in the gateway's trace: the body is always fully buffered before
streaming begins. -/
theorem c3_full_body_buffered_before_first_write (chunks : List (List Nat)) :
    noReadAfterFirstWrite (streamingTrace chunks) = true := by
  unfold streamingTrace sendRequestEvents
  exact noReadAfterFirstWrite_reads_append chunks _
    (noReadAfterFirstWrite_of_all_writes _ (relayLoop_all_not_read _ _))

/-- C4: for every key present in the ledger with `remaining_calls = n > 0`,
a single fault-free check-and-decrement returns `n - 1` and the stored
value becomes `n - 1`; for a key with `remaining_calls = 0` it returns `0`
and leaves the database unchanged; and if no stored value was negative
before the call, none is after it. -/
theorem c4_sequential_check_and_decrement (db : DB) (k : String) (n : Int)
    (hsel : db.selectFails = false) (hupd : db.updateFails = false)
    (hlk : lookup db.table k = some n) :
    (0 < n →
      (checkAndDecrementAPIKey db k).1 = Except.ok (n - 1) ∧
      lookup (checkAndDecrementAPIKey db k).2.table k = some (n - 1)) ∧
    (n = 0 →
      (checkAndDecrementAPIKey db k).1 = Except.ok 0 ∧
      (checkAndDecrementAPIKey db k).2 = db) ∧
    ((∀ k2 v, lookup db.table k2 = some v → 0 ≤ v) →
      ∀ k2 v, lookup (checkAndDecrementAPIKey db k).2.table k2 = some v → 0 ≤ v) := by
  refine ⟨?_, ?_, ?_⟩
  · intro hn
    have hng : ¬ n ≤ 0 := by omega
    constructor
    · simp [checkAndDecrementAPIKey, hsel, hupd, hlk, hng]
    · simp [checkAndDecrementAPIKey, hsel, hupd, hlk, hng,
        lookup_updateDecr_self db.table k n hlk]
  · intro hn
    subst hn
    constructor
    · simp [checkAndDecrementAPIKey, hsel, hlk]
    · simp [checkAndDecrementAPIKey, hsel, hlk]
  · intro hpos k2 v hv
    by_cases hn : n ≤ 0
    · simp [checkAndDecrementAPIKey, hsel, hlk, hn] at hv
      exact hpos k2 v hv
    · simp [checkAndDecrementAPIKey, hsel, hupd, hlk, hn] at hv
      by_cases hk2 : k2 = k
      · rw [hk2, lookup_updateDecr_self db.table k n hlk] at hv
        have := Option.some.inj hv
        omega
      · rw [lookup_updateDecr_ne db.table k k2 hk2] at hv
        exact hpos k2 v hv

/-- C4 witness: the theorem applied to the ledger `[("k", 2)]`. -/
theorem c4_witness :
    (checkAndDecrementAPIKey ⟨[("k", 2)], false, false⟩ "k").1 = Except.ok 1 ∧
    lookup (checkAndDecrementAPIKey ⟨[("k", 2)], false, false⟩ "k").2.table "k"
      = some 1 := by
  have h := (c4_sequential_check_and_decrement ⟨[("k", 2)], false, false⟩ "k" 2
    rfl rfl (by decide)).1 (by decide)
  simpa using h

/-- C5: for an upstream body consisting of newline-terminated lines, the
client receives exactly those lines, in order and unaltered, each written
and flushed as its own event — no line is merged, reordered, or altered. -/
theorem c5_lines_relayed_in_order (lines : List (List Nat))
    (h : ∀ l ∈ lines, isLine l = true) :
    relayEvents lines.flatten
      = (lines.map fun l => [Ev.writeLine l, Ev.flush]).flatten := by
  have := relayEvents_flatten_append lines [] h rfl
  simpa using this

/-- C5 witness: the body "a\nb\n" is relayed as the two lines "a\n", "b\n",
each with its own flush. -/
theorem c5_witness :
    relayEvents ([[97, 10], [98, 10]] : List (List Nat)).flatten
      = (([[97, 10], [98, 10]] : List (List Nat)).map
          fun l => [Ev.writeLine l, Ev.flush]).flatten :=
  c5_lines_relayed_in_order [[97, 10], [98, 10]] (by decide)

/-- C6 counterexample: the claim asserts the token exchange fails when the
response JSON lacks the `access_token` field. `json.Unmarshal` into a
struct leaves an absent field at its zero value without error, so for the
OK response whose body is the valid JSON object `\x7b\x7d` — which lacks
`access_token` — the code succeeds, returning the empty string. -/
theorem c6_counterexample :
    lookupField [] "access_token" = none ∧
    exchangeJWTForAccessToken
        (TokenHttpOutcome.response 200 "\x7b\x7d" (some (Json.obj [])))
      = Except.ok "" := by
  exact ⟨rfl, rfl⟩

/-- C6 amended: the token exchange fails if and only if the HTTP call
errors transport-side, or reading the response body errors, or the status
is not OK, or the body is not valid JSON, or the JSON cannot be decoded
into the expected object shape (top level neither object nor null, or an
`access_token` field holding a non-string, non-null value). A valid JSON
object merely lacking `access_token` is accepted, yielding the empty
token. -/
theorem c6_failure_characterization (o : TokenHttpOutcome) :
    exOk (exchangeJWTForAccessToken o) = !(specTokenExchangeFails o) := by
  cases o with
  | transportErr m => rfl
  | readErr m => rfl
  | response status raw parsed =>
    by_cases hst : status = 200
    · subst hst
      cases parsed with
      | none => rfl
      | some j =>
        cases j with
        | null => rfl
        | bool b => rfl
        | num n => rfl
        | str s => rfl
        | arr elems => rfl
        | obj fields =>
          simp only [exchangeJWTForAccessToken, specTokenExchangeFails,
            ne_eq, not_true_eq_false, if_false, ite_false]
          cases hf : lookupField fields "access_token" with
          | none => simp [unmarshalTokenResponse, hf, exOk]
          | some v => cases v <;> simp [unmarshalTokenResponse, hf, exOk]
    · simp [exchangeJWTForAccessToken, specTokenExchangeFails, hst, exOk]

/-- C7: for every POST request carrying a key header, if the key is absent
from the ledger or the check-and-decrement errors (storage fault or
missing key), the handler rejects with 401 unauthorized — never 403 — and
does not call the upstream endpoint. -/
theorem c7_fail_closed_unauthorized (req : Request) (db : DB)
    (up : UpstreamOutcome)
    (hm : req.method = "POST") (hk : req.apiKey ≠ "")
    (herr : lookup db.table req.apiKey = none ∨
      ∃ e, (checkAndDecrementAPIKey db req.apiKey).1 = Except.error e) :
    (handleForwardToEndpoint req db up).status = 401 ∧
    (handleForwardToEndpoint req db up).status ≠ 403 ∧
    (handleForwardToEndpoint req db up).upstreamCalled = false := by
  have herr2 : ∃ e, (checkAndDecrementAPIKey db req.apiKey).1 = Except.error e := by
    cases herr with
    | inl h => exact checkAndDecrement_error_of_lookup_none h
    | inr h => exact h
  obtain ⟨e, he⟩ := herr2
  rcases hcd : checkAndDecrementAPIKey db req.apiKey with ⟨res, db2⟩
  rw [hcd] at he
  cases res with
  | error msg => simp [handleForwardToEndpoint, hm, hk, hcd]
  | ok v => exact absurd he (by simp)

/-- C7 witness: a request with an unknown key against an empty ledger. -/
theorem c7_witness :
    (handleForwardToEndpoint ⟨"POST", "zzz", [], false⟩ ⟨[], false, false⟩
        (UpstreamOutcome.success 200 [])).status = 401 ∧
    (handleForwardToEndpoint ⟨"POST", "zzz", [], false⟩ ⟨[], false, false⟩
        (UpstreamOutcome.success 200 [])).status ≠ 403 ∧
    (handleForwardToEndpoint ⟨"POST", "zzz", [], false⟩ ⟨[], false, false⟩
        (UpstreamOutcome.success 200 [])).upstreamCalled = false :=
  c7_fail_closed_unauthorized ⟨"POST", "zzz", [], false⟩ ⟨[], false, false⟩
    (UpstreamOutcome.success 200 []) rfl (by decide) (Or.inl rfl)

/-- C8 counterexample: the claim asserts that on upstream transport failure
the client receives a 500 whose body is a generic message carrying no
internal detail. The code formats the transport error's text into the
body (`"Request failed: %v"`), so the body varies with — and echoes — the
underlying error text, as the two distinct transport errors below show. -/
theorem c8_counterexample :
    (handleForwardToEndpoint reqAbc dbAbc
        (UpstreamOutcome.transportErr "connection refused")).status = 500 ∧
    (handleForwardToEndpoint reqAbc dbAbc
        (UpstreamOutcome.transportErr "connection refused")).body
      = "Request failed: connection refused" ∧
    (handleForwardToEndpoint reqAbc dbAbc
          (UpstreamOutcome.transportErr "connection refused")).body
      ≠ (handleForwardToEndpoint reqAbc dbAbc
          (UpstreamOutcome.transportErr "tls handshake error")).body := by
  decide

/-- C8 amended: on upstream transport failure the client receives status
500 and nothing is streamed, but the response body is the string
"Request failed: " followed by the transport error's text — the error
text is echoed to the client rather than a fixed generic message. -/
theorem c8_transport_error_echoed (req : Request) (db : DB) (msg : String)
    (n : Int) (hm : req.method = "POST") (hk : req.apiKey ≠ "")
    (hcd : (checkAndDecrementAPIKey db req.apiKey).1 = Except.ok n)
    (hn : 0 < n) (hb : req.bodyReadFails = false) :
    (handleForwardToEndpoint req db (UpstreamOutcome.transportErr msg)).status
      = 500 ∧
    (handleForwardToEndpoint req db (UpstreamOutcome.transportErr msg)).body
      = "Request failed: " ++ msg ∧
    (handleForwardToEndpoint req db (UpstreamOutcome.transportErr msg)).events
      = [] := by
  rcases hp : checkAndDecrementAPIKey db req.apiKey with ⟨res, db2⟩
  rw [hp] at hcd
  cases res with
  | error e => exact absurd hcd (by simp)
  | ok v =>
    have hv : v = n := by simpa using hcd
    subst hv
    have hng : ¬ v ≤ 0 := by omega
    simp [handleForwardToEndpoint, hm, hk, hp, hng, hb, sendRequest]

/-- C8 witness: the amended theorem at the concrete scenario ledger. -/
theorem c8_witness :
    (handleForwardToEndpoint reqAbc dbAbc
        (UpstreamOutcome.transportErr "connection reset")).status = 500 ∧
    (handleForwardToEndpoint reqAbc dbAbc
        (UpstreamOutcome.transportErr "connection reset")).body
      = "Request failed: " ++ "connection reset" ∧
    (handleForwardToEndpoint reqAbc dbAbc
        (UpstreamOutcome.transportErr "connection reset")).events = [] :=
  c8_transport_error_echoed reqAbc dbAbc "connection reset" 2
    rfl (by decide) rfl (by decide) rfl

/-- C9: for a key whose record holds `remaining_calls = 1`, a valid POST
request is rejected with forbidden (403) and is not forwarded upstream,
yet the stored count is still decremented to 0: the last budgeted call is
consumed by a request that receives an error response. -/
theorem c9_last_call_consumed_on_reject (req : Request) (db : DB)
    (up : UpstreamOutcome)
    (hm : req.method = "POST") (hk : req.apiKey ≠ "")
    (hsel : db.selectFails = false) (hupd : db.updateFails = false)
    (hlk : lookup db.table req.apiKey = some 1) :
    (handleForwardToEndpoint req db up).status = 403 ∧
    (handleForwardToEndpoint req db up).upstreamCalled = false ∧
    lookup (handleForwardToEndpoint req db up).db.table req.apiKey = some 0 := by
  have hcd : checkAndDecrementAPIKey db req.apiKey
      = (Except.ok 0, { db with table := updateDecr db.table req.apiKey }) := by
    simp [checkAndDecrementAPIKey, hsel, hupd, hlk]
  have hl0 : lookup (updateDecr db.table req.apiKey) req.apiKey = some 0 := by
    simpa using lookup_updateDecr_self db.table req.apiKey 1 hlk
  simp [handleForwardToEndpoint, hm, hk, hcd, hl0]

/-- C9 witness: the theorem at the one-record ledger `[("abc", 1)]`. -/
theorem c9_witness :
    (handleForwardToEndpoint reqAbc ⟨[("abc", 1)], false, false⟩ upOk).status
      = 403 ∧
    (handleForwardToEndpoint reqAbc ⟨[("abc", 1)], false, false⟩
        upOk).upstreamCalled = false ∧
    lookup (handleForwardToEndpoint reqAbc ⟨[("abc", 1)], false, false⟩
        upOk).db.table reqAbc.apiKey = some 0 := by
  have h := c9_last_call_consumed_on_reject reqAbc ⟨[("abc", 1)], false, false⟩
    upOk rfl (by decide) rfl rfl (by decide)
  exact h

/-- C10: for an upstream body made of newline-terminated lines followed by
trailing bytes containing no newline, the relayed events are exactly those
of the newline-terminated lines: the loop exits on end-of-stream and the
partial final line is never written to the client. -/
theorem c10_partial_final_line_discarded (lines : List (List Nat))
    (tail : List Nat)
    (h : ∀ l ∈ lines, isLine l = true) (htail : ∀ b ∈ tail, b ≠ 10) :
    relayEvents (lines.flatten ++ tail)
      = (lines.map fun l => [Ev.writeLine l, Ev.flush]).flatten :=
  relayEvents_flatten_append lines tail h
    (takeLine_eq_none_of_no_newline tail htail)

/-- C10 witness: the body "a\nbc" (trailing "bc" unterminated) produces
only the events for the line "a\n". -/
theorem c10_witness :
    relayEvents (([[97, 10]] : List (List Nat)).flatten ++ [98, 99])
      = (([[97, 10]] : List (List Nat)).map
          fun l => [Ev.writeLine l, Ev.flush]).flatten :=
  c10_partial_final_line_discarded [[97, 10]] [98, 99] (by decide) (by decide)

end LLMGateway
